import Mathlib

set_option maxRecDepth 100000

/-!
Verification of the airflow-spotify-etl pipeline specification against a
shallow embedding of the repository sources.

The repository consists of three pipeline modules:
  - spotify_etl.py   : client-credentials flow, artist search, top-tracks ETL
  - spotify_etl2.py  : recently-played ETL into SQLite (pandas DataFrame based)
  - new.py           : recently-played analysis via spotipy, CSV sink

Raw API payloads are dynamically typed JSON, so we embed Python values as an
inductive `Json` type and Python attribute/subscript access as fallible
operations returning `Option` (where `none` models a raised exception that the
surrounding Python code catches). Stateful effects (database/CSV writes) are
made explicit as trace fields on the run results.
-/

/-- A Python/JSON value as it appears in the API payloads handled by the
pipeline. Numbers in these payloads are integers (`duration_ms`,
`popularity`, timestamps are strings); Python booleans act as the integers
0 and 1 where arithmetic is concerned. -/
inductive Json where
  | null
  | str (s : String)
  | num (n : Int)
  | bool (b : Bool)
  | arr (elems : List Json)
  | obj (fields : List (String × Json))

mutual

def Json.decEq (v1 v2 : Json) : Decidable (v1 = v2) := by
  cases v1 <;> cases v2 <;>
  try { apply isFalse ; intro h ; injection h }
  case null.null => exact isTrue rfl
  case str.str a b =>
    cases (inferInstance : Decidable (a = b)) with
    | isTrue h => exact isTrue (h ▸ rfl)
    | isFalse hne => exact isFalse fun hc => hne (by injection hc)
  case num.num a b =>
    cases (inferInstance : Decidable (a = b)) with
    | isTrue h => exact isTrue (h ▸ rfl)
    | isFalse hne => exact isFalse fun hc => hne (by injection hc)
  case bool.bool a b =>
    cases (inferInstance : Decidable (a = b)) with
    | isTrue h => exact isTrue (h ▸ rfl)
    | isFalse hne => exact isFalse fun hc => hne (by injection hc)
  case arr.arr xs ys =>
    cases Json.decEqList xs ys with
    | isTrue h => exact isTrue (h ▸ rfl)
    | isFalse hne => exact isFalse fun hc => hne (by injection hc)
  case obj.obj xs ys =>
    cases Json.decEqFields xs ys with
    | isTrue h => exact isTrue (h ▸ rfl)
    | isFalse hne => exact isFalse fun hc => hne (by injection hc)

def Json.decEqList (vs1 vs2 : List Json) : Decidable (vs1 = vs2) :=
  match vs1, vs2 with
  | [], [] => isTrue rfl
  | _ :: _, [] => isFalse fun hc => by cases hc
  | [], _ :: _ => isFalse fun hc => by cases hc
  | v1 :: t1, v2 :: t2 =>
    match Json.decEq v1 v2, Json.decEqList t1 t2 with
    | isTrue h1, isTrue h2 => isTrue (by rw [h1, h2])
    | isFalse hne, _ => isFalse fun hc => hne (by injection hc)
    | _, isFalse hne => isFalse fun hc => hne (by injection hc)

def Json.decEqFields (fs1 fs2 : List (String × Json)) : Decidable (fs1 = fs2) :=
  match fs1, fs2 with
  | [], [] => isTrue rfl
  | _ :: _, [] => isFalse fun hc => by cases hc
  | [], _ :: _ => isFalse fun hc => by cases hc
  | (k1, v1) :: t1, (k2, v2) :: t2 =>
    match (inferInstance : Decidable (k1 = k2)), Json.decEq v1 v2,
        Json.decEqFields t1 t2 with
    | isTrue h1, isTrue h2, isTrue h3 => isTrue (by rw [h1, h2, h3])
    | isFalse hne, _, _ => isFalse fun hc => hne (by injection hc with h hh; injection h)
    | _, isFalse hne, _ => isFalse fun hc => hne (by injection hc with h hh; injection h)
    | _, _, isFalse hne => isFalse fun hc => hne (by injection hc)

end

instance : DecidableEq Json := Json.decEq

namespace Json

/-- First-match lookup in an object field list (Python dict keys are unique,
so first match is the only match). -/
def lookup : List (String × Json) → String → Option Json
  | [], _ => none
  | (k, v) :: rest, key => if k = key then some v else lookup rest key

/-- Python truthiness (`bool(x)`): None, "", 0, False, [], {} are falsy. -/
def truthy : Json → Bool
  | .null => false
  | .str s => !s.isEmpty
  | .num n => n != 0
  | .bool b => b
  | .arr xs => !xs.isEmpty
  | .obj kvs => !kvs.isEmpty

end Json

/-- `x.get(key, dflt)`: defined only on dicts; on any other value Python
raises AttributeError, modelled as `none`. A key present with value null
returns null (not the default). -/
def pyGetD : Json → String → Json → Option Json
  | .obj kvs, key, dflt => some ((Json.lookup kvs key).getD dflt)
  | _, _, _ => none

/-- `x.get(key)` with no default: the default is None. -/
def pyGet (j : Json) (key : String) : Option Json :=
  pyGetD j key .null

/-- `x[key]` string subscript: KeyError when the key is missing, TypeError
when `x` is not a dict; both modelled as `none`. -/
def pySub : Json → String → Option Json
  | .obj kvs, key => Json.lookup kvs key
  | _, _ => none

/-- `x[0]`: first element of a list, first character of a nonempty string;
IndexError/TypeError otherwise (including integer subscripts on dicts). -/
def pyIndex0 : Json → Option Json
  | .arr (x :: _) => some x
  | .str s => if s.isEmpty then none else some (.str (s.take 1))
  | _ => none

/-- `x[:10]`: slicing is defined for strings and lists, TypeError otherwise. -/
def pySlice10 : Json → Option Json
  | .str s => some (.str (s.take 10))
  | .arr xs => some (.arr (xs.take 10))
  | _ => none

/-- `for x in v`: lists iterate elements, strings iterate 1-character
strings, dicts iterate their keys; other values raise TypeError. -/
def pyIter : Json → Option (List Json)
  | .arr xs => some xs
  | .str s => some (s.toList.map (fun c => .str (String.singleton c)))
  | .obj kvs => some (kvs.map (fun kv => .str kv.1))
  | _ => none

/-- Values usable as set elements / hashed by pandas: lists and dicts are
unhashable and make `set(...)` / `nunique` raise TypeError. -/
def pyHashable : Json → Bool
  | .arr _ => false
  | .obj _ => false
  | _ => true

/-- Python equality as pandas hashing sees scalar cells: booleans compare
equal to their integer values (`0 == False`, `1 == True` and they hash
alike); otherwise equality is by value within a type, and values of
different scalar types are unequal. Unhashable cells (lists/dicts) never
reach this comparison - hashing raises first. -/
def pyEqCell : Json → Json → Bool
  | .null, .null => true
  | .str a, .str b => a == b
  | .num a, .num b => a == b
  | .num a, .bool b => a == (if b then 1 else 0)
  | .bool a, .num b => (if a then 1 else 0) == b
  | .bool a, .bool b => a == b
  | _, _ => false

/-- Some two cells of the column are Python-equal: given that every cell
hashes, pandas `Series.is_unique` is false exactly then. -/
def hasPyDup : List Json → Bool
  | [] => false
  | x :: xs => xs.any (pyEqCell x) || hasPyDup xs

/-- Numeric view used by `sum` and pandas `mean`: Python bools are ints. -/
def jsonNumVal : Json → Option Int
  | .num n => some n
  | .bool b => some (if b then 1 else 0)
  | _ => none

/-- String view (for pandas min/max over the timestamp column). -/
def jsonStrVal : Json → Option String
  | .str s => some s
  | _ => none

/-- Python `not x` applied to an optional string config value: true for
`None` and for the empty string. This is the test both credential
resolvers use (`if not client_id: ...`). -/
def pyFalsy : Option String → Bool
  | none => true
  | some s => s.isEmpty

/-! ## Credential resolution (spotify_etl.py `get_spotify_credentials`,
new.py `get_spotify_user_credentials`)

Both resolvers read the Airflow Variable store first and fall back to the
process environment. `store` and `env` are the two key-value sources;
`none` models an unset key / `Variable.get(..., default_var=None)`. -/

/-- spotify_etl.py lines 13-43. The fallback test is Python truthiness
(`if not client_id`), and the final presence test is again truthiness
(`if not client_id or not client_secret`). -/
def get_spotify_credentials (store env : String → Option String) :
    Except String (String × String) :=
  let cid0 := store "SPOTIFY_CLIENT_ID"
  let cid := if pyFalsy cid0 then env "SPOTIFY_CLIENT_ID" else cid0
  let cs0 := store "SPOTIFY_CLIENT_SECRET"
  let cs := if pyFalsy cs0 then env "SPOTIFY_CLIENT_SECRET" else cs0
  if pyFalsy cid || pyFalsy cs then
    .error "Spotify credentials not found. Please set SPOTIFY_CLIENT_ID and SPOTIFY_CLIENT_SECRET"
  else
    .ok (cid.getD "", cs.getD "")

/-- new.py lines 10-48: same id/secret logic plus a redirect URI with a
non-empty default, so the redirect branch never affects the failure test. -/
def get_spotify_user_credentials (store env : String → Option String) :
    Except String (String × String × String) :=
  let cid0 := store "SPOTIFY_CLIENT_ID"
  let cid := if pyFalsy cid0 then env "SPOTIFY_CLIENT_ID" else cid0
  let cs0 := store "SPOTIFY_CLIENT_SECRET"
  let cs := if pyFalsy cs0 then env "SPOTIFY_CLIENT_SECRET" else cs0
  let ru0 := (store "SPOTIFY_REDIRECT_URI").getD "http://localhost:8080/callback"
  let ru := if ru0.isEmpty then
      (env "SPOTIFY_REDIRECT_URI").getD "http://localhost:8080/callback"
    else ru0
  if pyFalsy cid || pyFalsy cs then
    .error "Spotify credentials not found. Please set SPOTIFY_CLIENT_ID and SPOTIFY_CLIENT_SECRET. Get your credentials from: https://developer.spotify.com/dashboard/applications"
  else
    .ok (cid.getD "", cs.getD "", ru)

/-- The resolution order as the specification words it (for comparison with
the code): the environment variable is checked only when the stored value is
absent, not when it is merely empty. -/
def resolveSpecOrder (primary env : Option String) : Option String :=
  match primary with
  | some v => some v
  | none => env

/-! ## Limit clamping for the recently-played request -/

/-- new.py line 97: `limit = min(max(limit, 1), 50)`. -/
def sentLimitNew (limit : Int) : Int := min (max limit 1) 50

/-- spotify_etl2.py line 116: `"limit": min(limit, 50)` - no lower clamp. -/
def sentLimitEtl2 (limit : Int) : Int := min limit 50

/-! ## spotify_etl2.py: normalization (`process_tracks_data`) -/

/-- One row of the DataFrame built by `process_tracks_data`
(spotify_etl2.py lines 183-195). Values are appended unchanged from the
payload, so the fields stay dynamically typed. -/
structure Track2 where
  song_name : Json
  artist_name : Json
  played_at : Json
  timestamp : Json
  track_id : Json
  album_name : Json
  duration_ms : Json
  popularity : Json
deriving DecidableEq

/-- `artists[0].get("name", "Unknown") if artists else "Unknown"`
(spotify_etl2.py line 163). `none` models an exception: `artists` truthy but
not indexable, or `artists[0]` not a dict. -/
def artistNameOf (artists : Json) : Option Json :=
  if artists.truthy then do
    let a0 ← pyIndex0 artists
    pyGetD a0 "name" (.str "Unknown")
  else some (.str "Unknown")

/-- `played_at[:10] if played_at else ""` (spotify_etl2.py line 170).
`none` models a TypeError slicing a non-sliceable truthy value. -/
def timestampOf (played_at : Json) : Option Json :=
  if played_at.truthy then pySlice10 played_at else some (.str "")

/-- `track.get("album", {}).get("name", "Unknown")` second step
(spotify_etl2.py line 175): fails when the album value is not a dict. -/
def albumNameOf (album : Json) : Option Json :=
  pyGetD album "name" (.str "Unknown")

/-- Outcome of the per-item loop body (spotify_etl2.py lines 155-181) for a
single raw item. The body appends each extracted field to one of eight
column lists; an exception jumps to `continue` after the appends already
made. `skip` is an exception before the first append (item not a dict, or
the track value not a dict); `ragged1`/`ragged3`/`ragged5` are exceptions
after 1, 3 and 5 appends (while extracting the artist name, the timestamp
slice and the album name respectively - the appended values themselves are
dropped with the DataFrame, so only the counts are retained); `full` is a
completed row. -/
inductive Step2 where
  | skip
  | ragged1
  | ragged3
  | ragged5
  | full (t : Track2)
deriving DecidableEq

/-- Whether the loop body left the eight column lists with unequal lengths. -/
def Step2.isRagged : Step2 → Bool
  | .ragged1 | .ragged3 | .ragged5 => true
  | _ => false

/-- The completed row, if any. -/
def Step2.row : Step2 → Option Track2
  | .full t => some t
  | _ => none

/-- The loop body of spotify_etl2.py lines 155-181, in source evaluation
order. Once `item.get("track", {})` and `track.get("name", "Unknown")` have
succeeded, `item` and `track` are known to be dicts, so the remaining plain
`.get` calls cannot raise; the fallible points are the artist extraction,
the timestamp slice and the album-name extraction. -/
def step2 (item : Json) : Step2 :=
  match item with
  | .obj ikvs =>
    match (Json.lookup ikvs "track").getD (.obj []) with
    | .obj tkvs =>
      let song_name := (Json.lookup tkvs "name").getD (.str "Unknown")
      match artistNameOf ((Json.lookup tkvs "artists").getD (.arr [])) with
      | none => .ragged1
      | some artist_name =>
        let played_at := (Json.lookup ikvs "played_at").getD (.str "")
        match timestampOf played_at with
        | none => .ragged3
        | some timestamp =>
          let track_id := (Json.lookup tkvs "id").getD (.str "")
          match albumNameOf ((Json.lookup tkvs "album").getD (.obj [])) with
          | none => .ragged5
          | some album_name =>
            .full { song_name, artist_name, played_at, timestamp, track_id,
                    album_name,
                    duration_ms := (Json.lookup tkvs "duration_ms").getD (.num 0),
                    popularity := (Json.lookup tkvs "popularity").getD (.num 0) }
    | _ => .skip
  | _ => .skip

/-- spotify_etl2.py lines 135-198. `data.get("items", [])` raises when
`data` is not a dict (AttributeError escapes the function); iterating a
non-iterable items value raises TypeError. A fully processed item appends
to all eight column lists and a skipped one to none of them, while a ragged
item appends to a strict prefix, so `pd.DataFrame(song_dict)` (line 195)
raises "All arrays must be of the same length" exactly when some step is
ragged; otherwise the DataFrame rows are the completed rows in order. -/
def process_tracks_data (data : Json) : Except String (List Track2) :=
  match pyGetD data "items" (.arr []) with
  | none => .error "AttributeError: object has no attribute get"
  | some itemsVal =>
    match pyIter itemsVal with
    | none => .error "TypeError: object is not iterable"
    | some items =>
      let steps := items.map step2
      if steps.any Step2.isRagged then
        .error "All arrays must be of the same length"
      else
        .ok (steps.filterMap Step2.row)

/-! ## spotify_etl2.py: validation (`check_if_valid_data`) -/

/-- True when a DataFrame cell holds None/NaN; `df.isnull()` flags exactly
these. -/
def Track2.hasNullField (t : Track2) : Bool :=
  t.song_name = Json.null || t.artist_name = Json.null ||
  t.played_at = Json.null || t.timestamp = Json.null ||
  t.track_id = Json.null || t.album_name = Json.null ||
  t.duration_ms = Json.null || t.popularity = Json.null

/-- A timestamp cell `pd.to_datetime` can parse into a date in the shape
this pipeline produces (`played_at[:10]`, an ISO `YYYY-MM-DD` prefix). The
empty string and non-string cells fail to parse; the surrounding
`try/except` turns any parse failure into a logged error, so this predicate
influences only the warning text, never the returned value. -/
def parseableDateCell : Json → Bool
  | .str s =>
    s.length = 10 &&
    (s.toList.enum.all fun ic =>
      if ic.1 = 4 || ic.1 = 7 then ic.2 = Char.ofNat 45 else ic.2.isDigit)
  | _ => false

/-- The date a timestamp cell denotes, for comparison with `seven_days_ago`.
ISO `YYYY-MM-DD` strings compare by date exactly as they compare
lexicographically. -/
def dateCellLt (cell : Json) (bound : String) : Bool :=
  match cell with
  | .str s => decide (s < bound)
  | _ => false

/-- Warnings of the null check (spotify_etl2.py lines 64-68): log-only. -/
def nullWarnings (df : List Track2) : List String :=
  if df.any Track2.hasNullField then ["Null values found in data"] else []

/-- Warnings of the freshness check (spotify_etl2.py lines 70-84): the
`try` block converts the timestamp column to dates and counts entries older
than `seven_days_ago`; any conversion failure is caught and logged. Either
way the block only logs. -/
def timestampWarnings (df : List Track2) (sevenDaysAgoDate : String) : List String :=
  if df.all (fun t => parseableDateCell t.timestamp) then
    let oldCount := df.countP (fun t => dateCellLt t.timestamp sevenDaysAgoDate)
    if oldCount > 0 then [s!"Found {oldCount} tracks older than 7 days"] else []
  else
    ["Error validating timestamps"]

/-- spotify_etl2.py lines 42-86. Returns `(validity, logged warnings)`; the
only raising path is the primary-key check `not df["played_at"].is_unique`
(line 61; the `played_at` column always exists in the frame built by
`process_tracks_data`). `is_unique` is hash-based: it first hashes every
cell of the column, raising TypeError if any cell is a list or dict, and
then compares cells by Python equality, under which `0 == False` and
`1 == True` count as duplicates. Null values and stale timestamps are
logged and do not affect the result. -/
def check_if_valid_data (df : List Track2) (sevenDaysAgoDate : String) :
    Except String (Bool × List String) :=
  if df.isEmpty then
    .ok (false, ["No songs downloaded. Finishing execution"])
  else if (df.map (·.played_at)).any (fun c => ¬ pyHashable c) then
    .error "TypeError: unhashable type"
  else if hasPyDup (df.map (·.played_at)) then
    .error "Primary Key check is violated - duplicate played_at timestamps found"
  else
    .ok (true, nullWarnings df ++ timestampWarnings df sevenDaysAgoDate)

/-! ## spotify_etl2.py: orchestration (`run_spotify_recently_played_etl`) -/

/-- pandas `Series.nunique`: distinct count with nulls dropped. -/
def nuniqueJson (l : List Json) : Nat :=
  ((l.filter (· ≠ Json.null)).dedup).length

/-- pandas `Series.min`/`Series.max` over the timestamp column: defined when
every cell is a string (mixed types raise TypeError, modelled as `none`). -/
def dateRangeOf (df : List Track2) : Option (String × String) :=
  match (df.map (·.timestamp)).mapM jsonStrVal with
  | none => none
  | some [] => none
  | some (h :: t) => some (t.foldl min h, t.foldl max h)

/-- The XCom summary dict of spotify_etl2.py lines 257 and 271-278. The
"no_data" dict carries only the first two keys; absent keys are `none`. -/
structure Summary2 where
  tracks_processed : Nat
  status : String
  unique_artists : Option Nat := none
  date_range : Option String := none
  database_location : Option String := none
  execution_date : Option String := none
deriving DecidableEq

instance {e a : Type} [DecidableEq e] [DecidableEq a] : DecidableEq (Except e a) := fun
  | .error e1, .error e2 =>
    if h : e1 = e2 then isTrue (by rw [h]) else
      isFalse (by intro hc; injection hc; contradiction)
  | .ok a1, .ok a2 =>
    if h : a1 = a2 then isTrue (by rw [h]) else
      isFalse (by intro hc; injection hc; contradiction)
  | .error _, .ok _ => isFalse (by intro hc; injection hc)
  | .ok _, .error _ => isFalse (by intro hc; injection hc)

/-- A run of `run_spotify_recently_played_etl` together with its attempted
database writes (each element is a batch passed to `save_to_database`). -/
structure RunTrace2 where
  result : Except String Summary2
  writes : List (List Track2)
deriving DecidableEq

/-- spotify_etl2.py lines 231-282. Inputs model the external effects:
`data` is what `get_recently_played_tracks` produced (`none` for a request
failure - the function catches and returns None, and the run also treats a
falsy JSON body the same way via `if not data`); `saveOk` is the outcome of
`save_to_database`; `executionDate` is the context `ds` expression; and
`sevenDaysAgoDate` feeds the validator. Any exception raised inside the
`try` is logged and re-raised (lines 280-282), so errors propagate as
`.error`. The summary statistics (lines 273-274) run after the save and can
themselves raise: `nunique` on an unhashable artist cell, `min`/`max` on a
mixed-type timestamp column. -/
def run_spotify_recently_played_etl (data : Option Json) (saveOk : Bool)
    (executionDate : Option String) (sevenDaysAgoDate : String) : RunTrace2 :=
  match data with
  | none => ⟨.error "Failed to retrieve recently played tracks", []⟩
  | some d =>
    if ¬ d.truthy then ⟨.error "Failed to retrieve recently played tracks", []⟩
    else
      match process_tracks_data d with
      | .error e => ⟨.error e, []⟩
      | .ok df =>
        if df.isEmpty then
          ⟨.ok { tracks_processed := 0, status := "no_data" }, []⟩
        else
          match check_if_valid_data df sevenDaysAgoDate with
          | .error e => ⟨.error e, []⟩
          | .ok _ =>
            -- a False validity result is only logged ("continuing"), and the
            -- save is attempted next (lines 260-266)
            if ¬ saveOk then
              ⟨.error "Failed to save data to database", [df]⟩
            else if ((df.map (·.artist_name)).filter (· ≠ Json.null)).any
                (fun j => ¬ pyHashable j) then
              ⟨.error "TypeError: unhashable type", [df]⟩
            else
              match dateRangeOf df with
              | none => ⟨.error "TypeError: unorderable types for min", [df]⟩
              | some (lo, hi) =>
                ⟨.ok { tracks_processed := df.length,
                       status := "success",
                       unique_artists := some (nuniqueJson (df.map (·.artist_name))),
                       date_range := some (s!"{lo} to {hi}"),
                       database_location := some "sqlite:///my_played_tracks.sqlite",
                       execution_date := executionDate }, [df]⟩

/-! ## new.py: normalization inside `get_recently_played_tracks` -/

/-- One element of `track_data` (new.py lines 113-127). -/
structure TrackNew where
  rank : Nat
  track_name : Json
  artist_name : Json
  album_name : Json
  spotify_url : Json
  preview_url : Json
  duration_ms : Json
  popularity : Json
  explicit : Json
  played_at : Json
  track_id : Json
  artist_id : Json
  album_id : Json
deriving DecidableEq

/-- The conditional expression `track["artists"][0][key] if
track.get("artists") else dflt` used by new.py lines 116/125 and
spotify_etl.py line 241: with a falsy artists value the default is used
without any indexing; with a truthy one the first element is indexed and
subscripted, and any failure there raises (skipping the item). -/
def artistField (artistsC : Json) (key : String) (dflt : Json) : Option Json :=
  if artistsC.truthy then do
    let a0 ← pyIndex0 artistsC
    pySub a0 key
  else some dflt

/-- The loop body of new.py lines 108-133 for one enumerated item. The
whole dict literal is built before the single `track_data.append`, so any
exception (KeyError on `item["track"]` or on `artists[0]["name"]` /
`artists[0]["id"]`, AttributeError on `.get` of a non-dict) skips the item
atomically with a warning; the order of the fallible extractions therefore
does not matter and the monadic order below groups them for readability. -/
def processItemNew (idx : Nat) (item : Json) : Option TrackNew :=
  match pySub item "track" with
  | none => none
  | some track =>
    match item with
    | .obj ikvs =>
      let played_at := (Json.lookup ikvs "played_at").getD (.str "")
      match track with
      | .obj tkvs => do
        let artistsC := (Json.lookup tkvs "artists").getD Json.null
        let artist_name ← artistField artistsC "name" (.str "Unknown")
        let album := (Json.lookup tkvs "album").getD (.obj [])
        let album_name ← pyGetD album "name" (.str "Unknown")
        let exu := (Json.lookup tkvs "external_urls").getD (.obj [])
        let spotify_url ← pyGetD exu "spotify" (.str "")
        let artist_id ← artistField artistsC "id" (.str "")
        let album_id ← pyGetD album "id" (.str "")
        some { rank := idx + 1,
               track_name := (Json.lookup tkvs "name").getD (.str "Unknown"),
               artist_name, album_name, spotify_url,
               preview_url := (Json.lookup tkvs "preview_url").getD (.str ""),
               duration_ms := (Json.lookup tkvs "duration_ms").getD (.num 0),
               popularity := (Json.lookup tkvs "popularity").getD (.num 0),
               explicit := (Json.lookup tkvs "explicit").getD (.bool false),
               played_at,
               track_id := (Json.lookup tkvs "id").getD (.str ""),
               artist_id, album_id }
      | _ => none
    | _ => none

/-- new.py lines 84-140. `results` is what `sp.current_user_recently_played`
returned (`none` when the call raised; the outer handler then returns None).
`if not results or not results.get("items")` returns the empty list for a
falsy response or falsy items value; `results.get` on a non-dict raises and
the handler returns None. Ranks are assigned by `enumerate` before any
skipping. -/
def get_recently_played_tracks_new (results : Option Json) :
    Option (List TrackNew) :=
  match results with
  | none => none
  | some r =>
    if ¬ r.truthy then some []
    else
      match pyGet r "items" with
      | none => none
      | some itemsVal =>
        if ¬ itemsVal.truthy then some []
        else
          match pyIter itemsVal with
          | none => none
          | some items =>
            some (items.enum.filterMap fun p => processItemNew p.1 p.2)

/-! ## new.py: orchestration (`run_spotify_recently_played_analysis`) -/

/-- `sum(track["popularity"] for track in track_data)` (new.py line 251):
`none` models the TypeError of adding a non-number to the running int. -/
def sumPops (l : List Json) : Option Int :=
  l.foldl (fun acc j => acc.bind fun a => (jsonNumVal j).map (a + ·)) (some 0)

/-- Python `round` to the nearest integer: half-way cases go to the even
neighbour. (Python rounds the binary float; this is the exact-arithmetic
idealization, and no claim inspects the rounded value.) -/
def pyRoundEven (q : Rat) : Int :=
  let f := q.floor
  let frac := q - (f : Rat)
  if Rat.blt frac (mkRat 1 2) then f
  else if Rat.blt (mkRat 1 2) frac then f + 1
  else if f % 2 = 0 then f else f + 1

/-- `round(x, 2)` (new.py line 258). -/
def round2 (q : Rat) : Rat := (pyRoundEven (q * 100) : Rat) / 100

/-- The XCom summary dict of new.py lines 238 and 255-263. The "no_data"
dict carries only the first two keys; in the success dict `output_path` is
the configured path when the CSV save succeeded and None otherwise. -/
structure SummaryNew where
  tracks_processed : Nat
  status : String
  unique_artists : Option Nat := none
  average_popularity : Option Rat := none
  explicit_tracks : Option Nat := none
  output_path : Option String := none
  execution_date : Option String := none
deriving DecidableEq

/-- A run of `run_spotify_recently_played_analysis`: its result, the
batches passed to `save_tracks_to_csv`, and the denominator of every
division the run evaluated (the `/ len(track_data)` of line 251). -/
structure RunTraceNew where
  result : Except String SummaryNew
  writes : List (List TrackNew)
  divisors : List Nat
deriving DecidableEq

/-- new.py lines 211-267. `store`/`env` feed the credential resolver;
`clientOk` is whether `create_spotify_client` returned a client (it returns
None on any OAuth failure); `results` is the raw API response as above;
`saveOk` is the CSV write outcome. A None or empty `track_data` returns the
"no_data" summary (lines 236-238) - a failed retrieval is indistinguishable
from an empty one here. The statistics (lines 250-252) run after the save:
`set(...)` raises on an unhashable artist cell, `sum` raises on a
non-numeric popularity; `display_tracks` only prints, so the display toggle
does not appear. Exceptions are logged and re-raised (lines 265-267). -/
def run_spotify_recently_played_analysis (store env : String → Option String)
    (clientOk : Bool) (results : Option Json) (saveOk : Bool)
    (outputPath : String) (executionDate : Option String) : RunTraceNew :=
  match get_spotify_user_credentials store env with
  | .error e => ⟨.error e, [], []⟩
  | .ok _ =>
    if ¬ clientOk then ⟨.error "Failed to create Spotify client", [], []⟩
    else
      match get_recently_played_tracks_new results with
      | none => ⟨.ok { tracks_processed := 0, status := "no_data" }, [], []⟩
      | some track_data =>
        if track_data.isEmpty then
          ⟨.ok { tracks_processed := 0, status := "no_data" }, [], []⟩
        else
          let writes := [track_data]
          if (track_data.map (·.artist_name)).any (fun j => ¬ pyHashable j) then
            ⟨.error "TypeError: unhashable type", writes, []⟩
          else
            match sumPops (track_data.map (·.popularity)) with
            | none => ⟨.error "TypeError: unsupported operand types", writes, []⟩
            | some s =>
              let n := track_data.length
              ⟨.ok { tracks_processed := n,
                     status := "success",
                     unique_artists := some ((track_data.map (·.artist_name)).dedup.length),
                     average_popularity := some (round2 ((s : Rat) / (n : Rat))),
                     explicit_tracks := some (track_data.countP (fun t => t.explicit.truthy)),
                     output_path := if saveOk then some outputPath else none,
                     execution_date := executionDate }, writes, [n]⟩

/-! ## spotify_etl.py: artist search, top tracks, and orchestration -/

/-- spotify_etl.py lines 95-130. `resp` is the parsed 2xx search response
body; every failure path of the function (HTTP error, missing items,
malformed body - including the logging line that calls `.get` on the first
item) is caught and returns None. The first item is returned only when the
`artists.items` value is truthy, indexable and its first element is a
dict. -/
def search_for_artist (resp : Json) : Option Json :=
  match resp with
  | .obj kvs =>
    match pyGet ((Json.lookup kvs "artists").getD (.obj [])) "items" with
    | none => none
    | some itemsV =>
      if ¬ itemsV.truthy then none
      else
        match pyIndex0 itemsV with
        | none => none
        | some a0 =>
          match a0 with
          | .obj _ => some a0
          | _ => none
  | _ => none

/-- spotify_etl.py lines 133-167. Returns the raw `tracks` value of a 2xx
response; a falsy value, a non-dict body (the `.get` raises and the handler
returns `[]`) and every error path give the empty list. -/
def get_songs_by_artist (resp : Json) : Json :=
  match resp with
  | .obj kvs =>
    let tracks := (Json.lookup kvs "tracks").getD (.arr [])
    if ¬ tracks.truthy then .arr [] else tracks
  | _ => .arr []

/-- One element of `track_data` (spotify_etl.py lines 240-251). -/
structure TrackE where
  artist_name : Json
  song_name : Json
  popularity : Json
  duration_ms : Json
  explicit : Json
  external_url : Json
  preview_url : Json
  album_name : Json
  release_date : Json
  track_id : Json
deriving DecidableEq

/-- The loop body of spotify_etl.py lines 238-255: the dict is built before
the single append, so any exception skips the track atomically (logged
warning, `continue`). Fallible points: the artist branch subscripts
(`track["artists"][0]["name"]`), and `.get` on non-dict `album` or
`external_urls` values. -/
def processTrackE (track : Json) : Option TrackE :=
  match track with
  | .obj tkvs => do
    let artistsC := (Json.lookup tkvs "artists").getD Json.null
    let artist_name ← artistField artistsC "name" (.str "Unknown")
    let exu := (Json.lookup tkvs "external_urls").getD (.obj [])
    let external_url ← pyGetD exu "spotify" (.str "")
    let album := (Json.lookup tkvs "album").getD (.obj [])
    let album_name ← pyGetD album "name" (.str "Unknown")
    let release_date ← pyGetD album "release_date" (.str "")
    some { artist_name,
           song_name := (Json.lookup tkvs "name").getD (.str "Unknown"),
           popularity := (Json.lookup tkvs "popularity").getD (.num 0),
           duration_ms := (Json.lookup tkvs "duration_ms").getD (.num 0),
           explicit := (Json.lookup tkvs "explicit").getD (.bool false),
           external_url, preview_url := (Json.lookup tkvs "preview_url").getD (.str ""),
           album_name, release_date,
           track_id := (Json.lookup tkvs "id").getD (.str "") }
  | _ => none

/-- pandas `Series.mean` over the popularity column (spotify_etl.py lines
265 and 279): null cells are skipped, remaining cells must be numeric
(Python bools count as ints), and the sum is divided by the count of
non-null cells. An all-null column yields NaN without raising; the Lean
value 0 stands in for NaN there (no claim inspects it). -/
def meanPopPandas (l : List Json) : Except String Rat :=
  let xs := l.filter (· ≠ Json.null)
  match xs.mapM jsonNumVal with
  | none => .error "TypeError: unsupported operand types"
  | some ns => .ok ((ns.sum : Rat) / (xs.length : Rat))

/-- The XCom summary dict of spotify_etl.py lines 275-281. -/
structure SummaryE where
  artist_name : String
  tracks_processed : Nat
  output_path : String
  avg_popularity : Rat
  execution_date : Option String := none
deriving DecidableEq

/-- A run of `run_spotify_etl`: its result, the batches passed to
`save_to_csv`, and the batch length at each point where the code computes
the popularity average (lines 265 and 279; pandas divides by the number of
non-null popularity cells, which equals the batch length whenever no
popularity cell is null - the claims speak of the batch length). -/
structure RunTraceE where
  result : Except String SummaryE
  writes : List (List TrackE)
  divisors : List Nat
deriving DecidableEq

/-- spotify_etl.py lines 197-285. Inputs model the effects: `store`/`env`
feed the credential resolver, `artistName` is the SPOTIFY_ARTIST_NAME
variable (default "Ed Sheeran"), `token` is what `get_spotify_token`
returned (`none` on any failure), `searchResp` and `topResp` are the parsed
response bodies of the search and top-tracks calls, `saveOk` the outcome of
`save_to_csv`. All exceptions inside the `try` are logged and re-raised
(lines 283-285). -/
def run_spotify_etl (store env : String → Option String) (artistName : String)
    (outputBucket outputPath : String) (token : Option String)
    (searchResp topResp : Json) (saveOk : Bool)
    (executionDate : Option String) : RunTraceE :=
  match get_spotify_credentials store env with
  | .error e => ⟨.error e, [], []⟩
  | .ok _ =>
    match token with
    | none => ⟨.error "Failed to obtain Spotify access token", [], []⟩
    | some _ =>
      match search_for_artist searchResp with
      | none => ⟨.error s!"Artist \x27{artistName}\x27 not found", [], []⟩
      | some artistData =>
        match pySub artistData "id" with
        | none => ⟨.error "KeyError: id", [], []⟩
        | some _ =>
          let tracks := get_songs_by_artist topResp
          if ¬ tracks.truthy then
            ⟨.error s!"No tracks found for artist \x27{artistName}\x27", [], []⟩
          else
            match pyIter tracks with
            | none => ⟨.error "TypeError: object is not iterable", [], []⟩
            | some trackList =>
              let track_data := trackList.filterMap processTrackE
              if track_data.isEmpty then
                ⟨.error "No valid track data processed", [], []⟩
              else
                match meanPopPandas (track_data.map (·.popularity)) with
                | .error e => ⟨.error e, [], []⟩
                | .ok avg =>
                  -- line 265 logged the mean: first average computed here
                  let divs := [track_data.length]
                  if ¬ saveOk then
                    ⟨.error "Failed to save data to CSV", [track_data], divs⟩
                  else
                    ⟨.ok { artist_name := artistName,
                           tracks_processed := track_data.length,
                           output_path := s!"s3://{outputBucket}/{outputPath}",
                           avg_popularity := avg,
                           execution_date := executionDate },
                      [track_data], divs ++ [track_data.length]⟩


/-! ## Helper lemmas -/

/-- A successful lookup needs a nonempty field list. -/
theorem Json.lookup_ne_nil {kvs : List (String × Json)} {k : String} {v : Json}
    (h : Json.lookup kvs k = some v) : kvs ≠ [] := by
  intro hnil
  subst hnil
  simp [Json.lookup] at h

/-- Python equality is reflexive on the hashable scalar cells. -/
theorem pyEqCell_refl (v : Json) (h : pyHashable v = true) :
    pyEqCell v v = true := by
  cases v <;> simp_all [pyHashable, pyEqCell]

/-- `hasPyDup` is false exactly when the cells are pairwise Python-unequal. -/
theorem hasPyDup_eq_false_iff (l : List Json) :
    hasPyDup l = false ↔ l.Pairwise (fun a b => pyEqCell a b = false) := by
  induction l with
  | nil => simp [hasPyDup]
  | cons x xs ih =>
    simp only [hasPyDup, Bool.or_eq_false_iff, List.any_eq_false,
      List.pairwise_cons, ih, Bool.not_eq_true]

/-- Python equality of cells is symmetric. -/
theorem pyEqCell_symm (a b : Json) : pyEqCell a b = pyEqCell b a := by
  cases a <;> cases b <;> simp [pyEqCell, BEq.comm]

/-- Two Python-equal `played_at` cells at distinct positions in an
all-hashable column make the primary-key check raise, whatever the rest of
the batch holds. -/
theorem check_error_of_dup (df : List Track2) (now : String)
    (i j : Fin df.length) (hij : i ≠ j)
    (heq : pyEqCell (df.get i).played_at (df.get j).played_at = true)
    (hhash : (df.map (·.played_at)).all pyHashable = true) :
    check_if_valid_data df now =
      .error "Primary Key check is violated - duplicate played_at timestamps found" := by
  have hne : ¬ df.isEmpty = true := by
    intro h
    rw [List.isEmpty_iff] at h
    subst h
    exact absurd i.isLt (by simp)
  have hnoun : ¬ ((df.map (·.played_at)).any (fun c => ¬ pyHashable c)) = true := by
    rw [List.any_eq_true]
    rintro ⟨c, hc, hcbad⟩
    simp only [List.all_eq_true] at hhash
    simp [hhash c hc] at hcbad
  have hlen : df.length = (df.map (·.played_at)).length := by simp
  have hcast : ∀ k : Fin df.length,
      (df.map (·.played_at)).get (Fin.cast hlen k) = (df.get k).played_at := by
    intro k
    simp [List.get_eq_getElem]
  have hdup : hasPyDup (df.map (·.played_at)) = true := by
    cases hfd : hasPyDup (df.map (·.played_at)) with
    | true => rfl
    | false =>
      exfalso
      have hpw := (hasPyDup_eq_false_iff _).mp hfd
      rw [List.pairwise_iff_get] at hpw
      rcases Nat.lt_trichotomy i.val j.val with hlt | heqv | hgt
      · have hf := hpw (Fin.cast hlen i) (Fin.cast hlen j) hlt
        rw [hcast, hcast, heq] at hf
        cases hf
      · exact hij (Fin.ext heqv)
      · have hsymm : pyEqCell (df.get j).played_at (df.get i).played_at = true := by
          rw [pyEqCell_symm]
          exact heq
        have hf := hpw (Fin.cast hlen j) (Fin.cast hlen i) hgt
        rw [hcast, hcast, hsymm] at hf
        cases hf
  unfold check_if_valid_data
  rw [if_neg hne, if_neg hnoun, if_pos hdup]

/-- A run whose normalization produced a nonempty frame must have received
a truthy payload (a falsy one cannot hold a nonempty items list). -/
theorem process_ok_truthy (data : Json) (df : List Track2)
    (hproc : process_tracks_data data = .ok df) (hne : df ≠ []) :
    data.truthy = true := by
  cases data with
  | obj kvs =>
    cases kvs with
    | nil =>
      simp [process_tracks_data, pyGetD, Json.lookup, pyIter] at hproc
      exact absurd hproc hne
    | cons hd tl => simp [Json.truthy]
  | null => simp [process_tracks_data, pyGetD] at hproc
  | str s => simp [process_tracks_data, pyGetD] at hproc
  | num n => simp [process_tracks_data, pyGetD] at hproc
  | bool b => simp [process_tracks_data, pyGetD] at hproc
  | arr xs => simp [process_tracks_data, pyGetD] at hproc

/-- A fully normalized item with no `played_at` key gets the empty-string
substitute (spotify_etl2.py line 166). -/
theorem step2_full_played_at (ikvs : List (String × Json)) (t : Track2)
    (hnone : Json.lookup ikvs "played_at" = none)
    (hfull : step2 (.obj ikvs) = .full t) : t.played_at = .str "" := by
  simp only [step2] at hfull
  split at hfull
  case h_2 => exact absurd hfull (by simp)
  case h_1 tkvs heq =>
    split at hfull
    case h_1 => exact absurd hfull (by simp)
    case h_2 an han =>
      split at hfull
      case h_1 => exact absurd hfull (by simp)
      case h_2 ts hts =>
        split at hfull
        case h_1 => exact absurd hfull (by simp)
        case h_2 al hal =>
          injection hfull with h
          rw [← h]
          simp [hnone]

/-! ## Claim theorems -/

/-- Claim C2, counterexample. The claim says any requested limit below 1 is
clamped up to 1; the recently-played retrieval in spotify_etl2.py sends
`min(limit, 50)`, so requesting 0 sends 0, not 1. -/
theorem claim2_counterexample :
    sentLimitEtl2 0 = 0 ∧ sentLimitEtl2 0 ≠ 1 := by decide

/-- Claim C2, amended. The limit sent by new.py is clamped into [1, 50]
(200 yields 50, 0 yields 1); the limit sent by spotify_etl2.py is only
capped above at 50, and a request below 1 is sent unchanged. -/
theorem claim2_limit_clamping_amended (l : Int) :
    1 ≤ sentLimitNew l ∧ sentLimitNew l ≤ 50 ∧
    sentLimitNew 200 = 50 ∧ sentLimitNew 0 = 1 ∧
    sentLimitEtl2 l ≤ 50 ∧ (l < 1 → sentLimitEtl2 l = l) := by
  unfold sentLimitNew sentLimitEtl2
  omega

/-- Claim C2, witness at the limit value 0. -/
theorem claim2_witness :
    1 ≤ sentLimitNew 0 ∧ sentLimitNew 0 ≤ 50 ∧
    sentLimitNew 200 = 50 ∧ sentLimitNew 0 = 1 ∧
    sentLimitEtl2 0 ≤ 50 ∧ ((0 : Int) < 1 → sentLimitEtl2 0 = 0) :=
  claim2_limit_clamping_amended 0

/-- Variable store for the claim C6 material: the client id is present but
empty, the secret present and non-empty. -/
def storeC6 : String → Option String := fun k =>
  if k = "SPOTIFY_CLIENT_ID" then some ""
  else if k = "SPOTIFY_CLIENT_SECRET" then some "etl-secret"
  else none

/-- Environment for the claim C6 material: only the client id is set. -/
def envC6 : String → Option String := fun k =>
  if k = "SPOTIFY_CLIENT_ID" then some "env-id" else none

/-- Claim C6, counterexample. The claim says the environment is consulted
only when the stored value is absent, not merely empty; the resolver tests
Python falsiness, so a present-but-empty stored client id does fall back to
the environment (the run succeeds with the environment id), while the
specification-ordered resolution would keep the empty stored value. -/
theorem claim6_counterexample :
    get_spotify_credentials storeC6 envC6 = .ok ("env-id", "etl-secret") ∧
    resolveSpecOrder (storeC6 "SPOTIFY_CLIENT_ID") (envC6 "SPOTIFY_CLIENT_ID") =
      some "" := by decide

/-- Claim C6, amended. The environment fallback fires when the stored value
is absent or empty (Python falsiness); a non-empty stored value always wins;
and when the client id is unresolvable from both sources (absent or empty in
each) resolution fails with the missing-credentials error - in particular
when both id and secret are unresolvable. The same falsiness logic governs
the resolver `get_spotify_user_credentials` of new.py. -/
theorem claim6_credentials_amended (store env : String → Option String)
    (a b : String) (ha : a ≠ "") (hb : b ≠ "") :
    (store "SPOTIFY_CLIENT_ID" = some "" → env "SPOTIFY_CLIENT_ID" = some a →
      store "SPOTIFY_CLIENT_SECRET" = some b →
      get_spotify_credentials store env = .ok (a, b)) ∧
    (store "SPOTIFY_CLIENT_ID" = some a → store "SPOTIFY_CLIENT_SECRET" = some b →
      get_spotify_credentials store env = .ok (a, b)) ∧
    (pyFalsy (store "SPOTIFY_CLIENT_ID") = true →
      pyFalsy (env "SPOTIFY_CLIENT_ID") = true →
      get_spotify_credentials store env =
        .error "Spotify credentials not found. Please set SPOTIFY_CLIENT_ID and SPOTIFY_CLIENT_SECRET") ∧
    (store "SPOTIFY_CLIENT_ID" = some "" → env "SPOTIFY_CLIENT_ID" = some a →
      store "SPOTIFY_CLIENT_SECRET" = some b →
      ∃ ru, get_spotify_user_credentials store env = .ok (a, b, ru)) := by
  have hae : a.isEmpty = false := by
    cases hh : a.isEmpty
    · rfl
    · exact absurd ((String.isEmpty_iff a).mp hh) ha
  have hbe : b.isEmpty = false := by
    cases hh : b.isEmpty
    · rfl
    · exact absurd ((String.isEmpty_iff b).mp hh) hb
  refine ⟨?_, ?_, ?_, ?_⟩
  · intro h1 h2 h3
    simp [get_spotify_credentials, h1, h2, h3, pyFalsy, hae, hbe, String.isEmpty_iff]
  · intro h1 h2
    simp [get_spotify_credentials, h1, h2, pyFalsy, hae, hbe, String.isEmpty_iff]
  · intro h1 h2
    simp [get_spotify_credentials, h1, h2]
  · intro h1 h2 h3
    refine ⟨if ((store "SPOTIFY_REDIRECT_URI").getD "http://localhost:8080/callback").isEmpty
        then (env "SPOTIFY_REDIRECT_URI").getD "http://localhost:8080/callback"
        else (store "SPOTIFY_REDIRECT_URI").getD "http://localhost:8080/callback", ?_⟩
    simp [get_spotify_user_credentials, h1, h2, h3, pyFalsy, hae, hbe, String.isEmpty_iff]

/-- Claim C6, witness at the concrete store/environment pair. -/
theorem claim6_witness :
    (storeC6 "SPOTIFY_CLIENT_ID" = some "" → envC6 "SPOTIFY_CLIENT_ID" = some "env-id" →
      storeC6 "SPOTIFY_CLIENT_SECRET" = some "etl-secret" →
      get_spotify_credentials storeC6 envC6 = .ok ("env-id", "etl-secret")) ∧
    (storeC6 "SPOTIFY_CLIENT_ID" = some "env-id" →
      storeC6 "SPOTIFY_CLIENT_SECRET" = some "etl-secret" →
      get_spotify_credentials storeC6 envC6 = .ok ("env-id", "etl-secret")) ∧
    (pyFalsy (storeC6 "SPOTIFY_CLIENT_ID") = true →
      pyFalsy (envC6 "SPOTIFY_CLIENT_ID") = true →
      get_spotify_credentials storeC6 envC6 =
        .error "Spotify credentials not found. Please set SPOTIFY_CLIENT_ID and SPOTIFY_CLIENT_SECRET") ∧
    (storeC6 "SPOTIFY_CLIENT_ID" = some "" → envC6 "SPOTIFY_CLIENT_ID" = some "env-id" →
      storeC6 "SPOTIFY_CLIENT_SECRET" = some "etl-secret" →
      ∃ ru, get_spotify_user_credentials storeC6 envC6 = .ok ("env-id", "etl-secret", ru)) :=
  claim6_credentials_amended storeC6 envC6 "env-id" "etl-secret"
    (by decide) (by decide)

/-- Rows used by the claim C8 counterexample: distinct `played_at` values
that pandas nevertheless treats as duplicates (`0 == False`). -/
def dfC8a : List Track2 :=
  [{ song_name := .str "A", artist_name := .str "B", played_at := .num 0,
     timestamp := .str "", track_id := .str "", album_name := .str "C",
     duration_ms := .num 1, popularity := .num 2 },
   { song_name := .str "D", artist_name := .str "E", played_at := .bool false,
     timestamp := .str "", track_id := .str "", album_name := .str "F",
     duration_ms := .num 3, popularity := .num 4 }]

/-- Rows used by the claim C8 counterexample: distinct `played_at` values
one of which is list-valued, so hashing raises. -/
def dfC8b : List Track2 :=
  [{ song_name := .str "A", artist_name := .str "B",
     played_at := .arr [.num 1], timestamp := .arr [.num 1],
     track_id := .str "", album_name := .str "C",
     duration_ms := .num 1, popularity := .num 2 },
   { song_name := .str "D", artist_name := .str "E",
     played_at := .str "x", timestamp := .str "x",
     track_id := .str "", album_name := .str "F",
     duration_ms := .num 3, popularity := .num 4 }]

/-- Claim C8, counterexample. The claim promises a passing result for every
non-empty batch with pairwise-distinct `played_at` values, but pandas
`is_unique` compares by Python equality and hashes first: the batch with
cells `0` and `False` (distinct values, Python-equal) raises the
primary-key Exception, and a batch with a list-valued cell (distinct from
everything) raises TypeError. -/
theorem claim8_counterexample :
    (dfC8a.get ⟨0, by decide⟩).played_at ≠ (dfC8a.get ⟨1, by decide⟩).played_at ∧
    check_if_valid_data dfC8a "2026-10-05" =
      .error "Primary Key check is violated - duplicate played_at timestamps found" ∧
    (dfC8b.get ⟨0, by decide⟩).played_at ≠ (dfC8b.get ⟨1, by decide⟩).played_at ∧
    check_if_valid_data dfC8b "2026-10-05" =
      .error "TypeError: unhashable type" := by decide

/-- Claim C8, amended. A non-empty batch whose `played_at` cells are all
hashable scalars and pairwise distinct under Python equality (which
identifies 0 with False and 1 with True) passes validation with result
True and no exception, whatever null fields or stale timestamps it
contains - those feed only the warning list. -/
theorem claim8_validator_passes_distinct (df : List Track2) (now : String)
    (hne : df ≠ [])
    (hhash : (df.map (·.played_at)).all pyHashable = true)
    (hnd : hasPyDup (df.map (·.played_at)) = false) :
    ∃ w, check_if_valid_data df now = .ok (true, w) := by
  refine ⟨nullWarnings df ++ timestampWarnings df now, ?_⟩
  have hnoun : ¬ ((df.map (·.played_at)).any (fun c => ¬ pyHashable c)) = true := by
    rw [List.any_eq_true]
    rintro ⟨c, hc, hcbad⟩
    simp only [List.all_eq_true] at hhash
    simp [hhash c hc] at hcbad
  unfold check_if_valid_data
  rw [if_neg (by simpa using hne), if_neg hnoun, if_neg (by simp [hnd])]

/-- Claim C8, witness: a two-row batch with a null artist cell and a
timestamp far older than seven days before the reference date still
validates to True. -/
theorem claim8_witness :
    ∃ w, check_if_valid_data
      [{ song_name := .str "A", artist_name := Json.null,
         played_at := .str "2020-01-01T00:00:00Z", timestamp := .str "2020-01-01",
         track_id := .str "", album_name := .str "B",
         duration_ms := .num 1, popularity := .num 2 },
       { song_name := .str "C", artist_name := .str "D",
         played_at := .str "2026-10-10T00:00:00Z", timestamp := .str "2026-10-10",
         track_id := .str "", album_name := .str "E",
         duration_ms := .num 3, popularity := .num 4 }] "2026-10-05" =
      .ok (true, w) :=
  claim8_validator_passes_distinct _ _ (by decide) (by decide) (by decide)

/-- A batch holding two items with the same list-valued `played_at` (lists
slice fine, so such rows survive normalization) for the claim C1
counterexample. -/
def dataC1x : Json :=
  .obj [("items", .arr
    [.obj [("track", .obj [("name", .str "A")]),
           ("played_at", .arr [.num 1])],
     .obj [("track", .obj [("name", .str "B")]),
           ("played_at", .arr [.num 1])]])]

/-- The frame `process_tracks_data` builds from `dataC1x`. -/
def dfC1x : List Track2 :=
  [{ song_name := .str "A", artist_name := .str "Unknown",
     played_at := .arr [.num 1], timestamp := .arr [.num 1],
     track_id := .str "", album_name := .str "Unknown",
     duration_ms := .num 0, popularity := .num 0 },
   { song_name := .str "B", artist_name := .str "Unknown",
     played_at := .arr [.num 1], timestamp := .arr [.num 1],
     track_id := .str "", album_name := .str "Unknown",
     duration_ms := .num 0, popularity := .num 0 }]

/-- Claim C1, counterexample. A normalized batch can carry two records with
the same non-empty list-valued `played_at` (the `[:10]` slice keeps lists);
there pandas `is_unique` raises TypeError while hashing the column, so the
Validator fails with TypeError, not with the primary-key violation the
claim promises. -/
theorem claim1_counterexample :
    process_tracks_data dataC1x = .ok dfC1x ∧
    (dfC1x.get ⟨0, by decide⟩).played_at = (dfC1x.get ⟨1, by decide⟩).played_at ∧
    (dfC1x.get ⟨0, by decide⟩).played_at ≠ .str "" ∧
    check_if_valid_data dfC1x "2026-10-05" =
      .error "TypeError: unhashable type" := by decide

/-- Claim C1, amended. For a batch whose `played_at` column holds only
hashable scalars, two records with the same non-empty `played_at` value
make `check_if_valid_data` raise the primary-key error, and a run whose
normalized frame is that batch fails with that error (the orchestrator
logs and re-raises; the error is not converted into a skipped warning).
A batch with an unhashable (list- or dict-valued) `played_at` cell makes
the Validator raise TypeError instead. -/
theorem claim1_duplicate_played_at_fatal (df : List Track2) (data : Json)
    (saveOk : Bool) (executionDate : Option String) (now : String)
    (i j : Fin df.length) (hij : i ≠ j)
    (heq : (df.get i).played_at = (df.get j).played_at)
    (hnonempty : (df.get i).played_at ≠ .str "")
    (hhash : (df.map (·.played_at)).all pyHashable = true) :
    check_if_valid_data df now =
      .error "Primary Key check is violated - duplicate played_at timestamps found" ∧
    (process_tracks_data data = .ok df →
      (run_spotify_recently_played_etl (some data) saveOk executionDate now).result =
        .error "Primary Key check is violated - duplicate played_at timestamps found") ∧
    (∀ (df2 : List Track2) (now2 : String), df2 ≠ [] →
      (df2.map (·.played_at)).any (fun c => ¬ pyHashable c) = true →
      check_if_valid_data df2 now2 = .error "TypeError: unhashable type") := by
  have hcellj : pyHashable (df.get j).played_at = true := by
    simp only [List.all_eq_true] at hhash
    exact hhash _ (List.mem_map_of_mem _ (df.get_mem j.val j.isLt))
  have hpeq : pyEqCell (df.get i).played_at (df.get j).played_at = true := by
    rw [heq]
    exact pyEqCell_refl _ hcellj
  have hchk := check_error_of_dup df now i j hij hpeq hhash
  refine ⟨hchk, ?_, ?_⟩
  · intro hproc
    have hne : df ≠ [] := by
      intro h
      subst h
      exact absurd i.isLt (by simp)
    have htr := process_ok_truthy data df hproc hne
    have hnemp : df.isEmpty = false := by
      cases hh : df.isEmpty
      · rfl
      · exact absurd (List.isEmpty_iff.mp hh) hne
    simp [run_spotify_recently_played_etl, htr, hproc, hchk, hnemp]
  · intro df2 now2 hne2 hbad
    unfold check_if_valid_data
    rw [if_neg (by simpa using hne2), if_pos hbad]

/-- Concrete two-item payload for the claim C1 witness: both items carry
the same non-empty `played_at`. -/
def dataC1 : Json :=
  .obj [("items", .arr
    [.obj [("track", .obj [("name", .str "A")]),
           ("played_at", .str "2026-10-10T10:00:00Z")],
     .obj [("track", .obj [("name", .str "B")]),
           ("played_at", .str "2026-10-10T10:00:00Z")]])]

/-- The frame `process_tracks_data` builds from `dataC1`. -/
def dfC1 : List Track2 :=
  [{ song_name := .str "A", artist_name := .str "Unknown",
     played_at := .str "2026-10-10T10:00:00Z", timestamp := .str "2026-10-10",
     track_id := .str "", album_name := .str "Unknown",
     duration_ms := .num 0, popularity := .num 0 },
   { song_name := .str "B", artist_name := .str "Unknown",
     played_at := .str "2026-10-10T10:00:00Z", timestamp := .str "2026-10-10",
     track_id := .str "", album_name := .str "Unknown",
     duration_ms := .num 0, popularity := .num 0 }]

/-- Claim C1, witness at the concrete duplicate batch (string timestamps,
so the column is hashable), plus the TypeError branch at the list-valued
batch. -/
theorem claim1_witness :
    process_tracks_data dataC1 = .ok dfC1 ∧
    check_if_valid_data dfC1 "2026-10-05" =
      .error "Primary Key check is violated - duplicate played_at timestamps found" ∧
    (run_spotify_recently_played_etl (some dataC1) true none "2026-10-05").result =
      .error "Primary Key check is violated - duplicate played_at timestamps found" ∧
    check_if_valid_data dfC1x "2026-10-06" = .error "TypeError: unhashable type" :=
  have hp : process_tracks_data dataC1 = .ok dfC1 := by decide
  have h := claim1_duplicate_played_at_fatal dfC1 dataC1 true none "2026-10-05"
    ⟨0, by decide⟩ ⟨1, by decide⟩ (by decide) (by decide) (by decide) (by decide)
  ⟨hp, h.1, h.2.1 hp, h.2.2 dfC1x "2026-10-06" (by decide) (by decide)⟩

/-- Claim C10, counterexample. The claim quantifies over every batch with
two or more items lacking `played_at`; but an item whose `track` value is
null is skipped by the normalizer before any empty-string substitution, so
a batch of two such items normalizes to an empty frame and the validator
returns the no-data result instead of raising the primary-key error. -/
theorem claim10_counterexample :
    process_tracks_data
      (.obj [("items", .arr [.obj [("track", Json.null)], .obj [("track", Json.null)]])]) =
      .ok [] ∧
    check_if_valid_data [] "2026-10-05" =
      .ok (false, ["No songs downloaded. Finishing execution"]) := by decide

/-- Claim C10, amended. The uniqueness check covers empty `played_at` cells:
any two items that lack the `played_at` key and are normalized into records
(rather than skipped) receive the empty-string substitute, so any batch
holding both - and no unhashable (list- or dict-valued) `played_at` cell,
which would make the hashing raise TypeError first - raises the
duplicate-played_at error. -/
theorem claim10_empty_played_at_duplicates (df : List Track2) (now : String)
    (ikvs jkvs : List (String × Json)) (ti tj : Track2)
    (i j : Fin df.length) (hij : i ≠ j)
    (hki : Json.lookup ikvs "played_at" = none)
    (hkj : Json.lookup jkvs "played_at" = none)
    (hfi : step2 (.obj ikvs) = .full ti) (hfj : step2 (.obj jkvs) = .full tj)
    (hgi : df.get i = ti) (hgj : df.get j = tj)
    (hhash : (df.map (·.played_at)).all pyHashable = true) :
    check_if_valid_data df now =
      .error "Primary Key check is violated - duplicate played_at timestamps found" := by
  have hti := step2_full_played_at ikvs ti hki hfi
  have htj := step2_full_played_at jkvs tj hkj hfj
  exact check_error_of_dup df now i j hij
    (by rw [hgi, hgj, hti, htj]; decide) hhash

/-- Claim C10, witness: two items with tracks but no `played_at` key. -/
theorem claim10_witness :
    check_if_valid_data
      [{ song_name := .str "A", artist_name := .str "Unknown",
         played_at := .str "", timestamp := .str "",
         track_id := .str "", album_name := .str "Unknown",
         duration_ms := .num 0, popularity := .num 0 },
       { song_name := .str "B", artist_name := .str "Unknown",
         played_at := .str "", timestamp := .str "",
         track_id := .str "", album_name := .str "Unknown",
         duration_ms := .num 0, popularity := .num 0 }] "2026-10-05" =
      .error "Primary Key check is violated - duplicate played_at timestamps found" :=
  claim10_empty_played_at_duplicates _ "2026-10-05"
    [("track", .obj [("name", .str "A")])] [("track", .obj [("name", .str "B")])]
    { song_name := .str "A", artist_name := .str "Unknown",
      played_at := .str "", timestamp := .str "",
      track_id := .str "", album_name := .str "Unknown",
      duration_ms := .num 0, popularity := .num 0 }
    { song_name := .str "B", artist_name := .str "Unknown",
      played_at := .str "", timestamp := .str "",
      track_id := .str "", album_name := .str "Unknown",
      duration_ms := .num 0, popularity := .num 0 }
    ⟨0, by decide⟩ ⟨1, by decide⟩ (by decide)
    (by decide) (by decide) (by decide) (by decide) (by decide) (by decide)
    (by decide)

/-- Claim C3. A response whose `items` list is empty normalizes to an empty
batch in both recently-played pipelines, and both orchestrators return the
`{tracks_processed: 0, status: "no_data"}` summary with no write attempted
on any sink. -/
theorem claim3_empty_items_no_data (kvs rkvs : List (String × Json))
    (store env : String → Option String) (c : String × String × String)
    (saveOk : Bool) (outputPath : String) (executionDate : Option String)
    (now : String)
    (hk : Json.lookup kvs "items" = some (.arr []))
    (hr : Json.lookup rkvs "items" = some (.arr []))
    (hcred : get_spotify_user_credentials store env = .ok c) :
    process_tracks_data (.obj kvs) = .ok [] ∧
    run_spotify_recently_played_etl (some (.obj kvs)) saveOk executionDate now =
      ⟨.ok { tracks_processed := 0, status := "no_data" }, []⟩ ∧
    get_recently_played_tracks_new (some (.obj rkvs)) = some [] ∧
    run_spotify_recently_played_analysis store env true (some (.obj rkvs))
        saveOk outputPath executionDate =
      ⟨.ok { tracks_processed := 0, status := "no_data" }, [], []⟩ := by
  have hkne : kvs ≠ [] := Json.lookup_ne_nil hk
  have hrne : rkvs ≠ [] := Json.lookup_ne_nil hr
  have hproc : process_tracks_data (.obj kvs) = .ok [] := by
    simp [process_tracks_data, pyGetD, hk, pyIter]
  have hget : get_recently_played_tracks_new (some (.obj rkvs)) = some [] := by
    simp [get_recently_played_tracks_new, Json.truthy, hrne, pyGet, pyGetD, hr]
  refine ⟨hproc, ?_, hget, ?_⟩
  · simp [run_spotify_recently_played_etl, Json.truthy, hkne, hproc]
  · simp [run_spotify_recently_played_analysis, hcred, hget]

/-- Variable store used by several witnesses: full credentials present. -/
def storeOk : String → Option String := fun k =>
  if k = "SPOTIFY_CLIENT_ID" then some "cid"
  else if k = "SPOTIFY_CLIENT_SECRET" then some "csec"
  else none

/-- Claim C3, witness at the concrete empty-items response. -/
theorem claim3_witness :
    process_tracks_data (.obj [("items", .arr [])]) = .ok [] ∧
    run_spotify_recently_played_etl (some (.obj [("items", .arr [])])) true none "2026-10-05" =
      ⟨.ok { tracks_processed := 0, status := "no_data" }, []⟩ ∧
    get_recently_played_tracks_new (some (.obj [("items", .arr [])])) = some [] ∧
    run_spotify_recently_played_analysis storeOk (fun _ => none) true
        (some (.obj [("items", .arr [])])) true "out.csv" none =
      ⟨.ok { tracks_processed := 0, status := "no_data" }, [], []⟩ :=
  claim3_empty_items_no_data [("items", .arr [])] [("items", .arr [])]
    storeOk (fun _ => none) ("cid", "csec", "http://localhost:8080/callback")
    true "out.csv" none "2026-10-05" (by decide) (by decide) (by decide)

/-- Claim C7. When the artist search yields no match (the function returns
None), `run_spotify_etl` for the default artist "Ed Sheeran" fails with the
"Artist not found" error before any persistence: the writes trace is empty. -/
theorem claim7_artist_not_found (store env : String → Option String)
    (cred : String × String) (bucket path tok : String)
    (searchResp topResp : Json) (saveOk : Bool) (executionDate : Option String)
    (hcred : get_spotify_credentials store env = .ok cred)
    (hsearch : search_for_artist searchResp = none) :
    run_spotify_etl store env "Ed Sheeran" bucket path (some tok) searchResp topResp
        saveOk executionDate =
      ⟨.error "Artist \x27Ed Sheeran\x27 not found", [], []⟩ := by
  simp [run_spotify_etl, hcred, hsearch]
  rfl

/-- Claim C7, witness: a search response with an empty items list. -/
theorem claim7_witness :
    run_spotify_etl storeOk (fun _ => none) "Ed Sheeran" "bucket" "songs.csv"
        (some "tok") (.obj [("artists", .obj [("items", .arr [])])]) (.obj [])
        true none =
      ⟨.error "Artist \x27Ed Sheeran\x27 not found", [], []⟩ :=
  claim7_artist_not_found storeOk (fun _ => none) ("cid", "csec") "bucket"
    "songs.csv" "tok" (.obj [("artists", .obj [("items", .arr [])])]) (.obj [])
    true none (by decide) (by decide)

/-- Claim C4. A sink failure on a non-empty validated batch is never folded
into a clean success: the spotify_etl2 run re-raises "Failed to save data to
database" (after attempting the write), and in the new.py run the returned
summary field `output_path` is the configured path exactly when the CSV save
succeeded, so a failure is visible in the result. -/
theorem claim4_sink_failure_surfaced
    (data : Json) (df : List Track2) (executionDate : Option String) (now : String)
    (p : Bool × List String)
    (store env : String → Option String) (results : Option Json)
    (outputPath : String) (s : SummaryNew) (saveOk : Bool)
    (hproc : process_tracks_data data = .ok df) (hne : df ≠ [])
    (hchk : check_if_valid_data df now = .ok p) :
    (run_spotify_recently_played_etl (some data) false executionDate now).result =
      .error "Failed to save data to database" ∧
    (run_spotify_recently_played_etl (some data) false executionDate now).writes = [df] ∧
    ((run_spotify_recently_played_analysis store env true results saveOk outputPath
        executionDate).result = .ok s → s.status = "success" →
      (s.output_path = some outputPath ↔ saveOk = true)) := by
  have htr := process_ok_truthy data df hproc hne
  have hnemp : df.isEmpty = false := by
    cases hh : df.isEmpty
    · rfl
    · exact absurd (List.isEmpty_iff.mp hh) hne
  refine ⟨?_, ?_, ?_⟩
  · simp [run_spotify_recently_played_etl, htr, hproc, hchk, hnemp]
  · simp [run_spotify_recently_played_etl, htr, hproc, hchk, hnemp]
  · intro heq hstat
    unfold run_spotify_recently_played_analysis at heq
    split at heq
    · simp at heq
    · rw [if_neg (by simp)] at heq
      split at heq
      · simp at heq
        rw [← heq] at hstat
        simp at hstat
      · split at heq
        · simp at heq
          rw [← heq] at hstat
          simp at hstat
        · split at heq
          · simp at heq
          · split at heq
            · simp at heq
            · simp at heq
              rw [← heq]
              cases saveOk <;> simp

/-- Single-item payload with one valid track, for the claim C4 witness. -/
def dataC4 : Json :=
  .obj [("items", .arr
    [.obj [("track", .obj [("name", .str "A")]),
           ("played_at", .str "2026-10-10T10:00:00Z")]])]

/-- The frame built from `dataC4`. -/
def dfC4 : List Track2 :=
  [{ song_name := .str "A", artist_name := .str "Unknown",
     played_at := .str "2026-10-10T10:00:00Z", timestamp := .str "2026-10-10",
     track_id := .str "", album_name := .str "Unknown",
     duration_ms := .num 0, popularity := .num 0 }]

/-- Raw spotipy response for the claim C4 witness. -/
def resultsC4 : Json :=
  .obj [("items", .arr
    [.obj [("track", .obj [("name", .str "A"), ("popularity", .num 10)])]])]

/-- The summary the new.py run returns on `resultsC4` with a failed save. -/
def summaryC4 : SummaryNew :=
  { tracks_processed := 1, status := "success", unique_artists := some 1,
    average_popularity := some 10, explicit_tracks := some 0,
    output_path := none, execution_date := none }

/-- Claim C4, witness at the concrete one-track batch with a failing sink. -/
theorem claim4_witness :
    (run_spotify_recently_played_etl (some dataC4) false none "2026-10-05").result =
      .error "Failed to save data to database" ∧
    (run_spotify_recently_played_etl (some dataC4) false none "2026-10-05").writes =
      [dfC4] ∧
    ((run_spotify_recently_played_analysis storeOk (fun _ => none) true
        (some resultsC4) false "out.csv" none).result = .ok summaryC4 →
      summaryC4.status = "success" →
      (summaryC4.output_path = some "out.csv" ↔ false = true)) :=
  claim4_sink_failure_surfaced dataC4 dfC4 none "2026-10-05"
    (true, nullWarnings dfC4 ++ timestampWarnings dfC4 "2026-10-05")
    storeOk (fun _ => none) (some resultsC4) "out.csv" summaryC4 false
    (by decide) (by decide) rfl

/-- Claim C9. In both orchestrators that compute a popularity average, the
division is reached only after the empty/None batch cases have returned
"no_data" or raised, so every recorded division denominator (the batch
length) is positive: zero is never among them, in any run. -/
theorem claim9_no_division_by_zero
    (store env : String → Option String) (artistName bucket path : String)
    (token : Option String) (searchResp topResp : Json) (saveOk : Bool)
    (executionDate : Option String) (clientOk : Bool) (results : Option Json)
    (outputPath : String) :
    0 ∉ (run_spotify_etl store env artistName bucket path token searchResp topResp
          saveOk executionDate).divisors ∧
    0 ∉ (run_spotify_recently_played_analysis store env clientOk results saveOk
          outputPath executionDate).divisors := by
  have hlen : ∀ {α : Type} {l : List α}, ¬ l = [] → ¬ (0 = l.length) :=
    fun h h0 => h (List.length_eq_zero.mp h0.symm)
  constructor
  · unfold run_spotify_etl
    repeat' split
    all_goals try simp_all [List.isEmpty_iff]
    all_goals repeat' split
    all_goals try simp_all [List.isEmpty_iff]
    all_goals
      rename_i hex heq
      intro h0
      obtain ⟨x, hx, hpx⟩ := hex
      exact hpx (List.filterMap_eq_nil.mp (List.length_eq_zero.mp h0.symm) x hx)
  · unfold run_spotify_recently_played_analysis
    repeat' split
    all_goals try simp_all [List.isEmpty_iff]
    all_goals exact hlen (by assumption)

/-- Claim C9, witness at concrete runs of both orchestrators. -/
theorem claim9_witness :
    0 ∉ (run_spotify_etl storeOk (fun _ => none) "Ed Sheeran" "bucket" "songs.csv"
          (some "tok") (.obj [("artists", .obj [("items", .arr [])])]) (.obj [])
          true none).divisors ∧
    0 ∉ (run_spotify_recently_played_analysis storeOk (fun _ => none) true
          (some resultsC4) true "out.csv" none).divisors :=
  claim9_no_division_by_zero storeOk (fun _ => none) "Ed Sheeran" "bucket"
    "songs.csv" (some "tok") (.obj [("artists", .obj [("items", .arr [])])])
    (.obj []) true none true (some resultsC4) "out.csv"

/-- Claim C5, counterexample. The claim says an item with no usable track
shape is skipped with a warning while the rest of the batch is processed and
that the normalizer never raises. In spotify_etl2.py, (a) an item with no
`track` key at all is not skipped: `item.get("track", {})` substitutes an
empty dict and a record of pure defaults is emitted; and (b) an item whose
extraction fails after the first column append (here: a non-dict entry in
`artists`) leaves the eight column lists ragged, so the `pd.DataFrame` call
raises and the whole batch is lost rather than processed. -/
theorem claim5_counterexample :
    process_tracks_data (.obj [("items", .arr [.obj []])]) =
      .ok [{ song_name := .str "Unknown", artist_name := .str "Unknown",
             played_at := .str "", timestamp := .str "", track_id := .str "",
             album_name := .str "Unknown", duration_ms := .num 0,
             popularity := .num 0 }] ∧
    process_tracks_data
      (.obj [("items", .arr
        [.obj [("track", .obj [("name", .str "A"), ("artists", .arr [.num 5])])],
         .obj [("track", .obj [("name", .str "B")])]])]) =
      .error "All arrays must be of the same length" := by decide

/-- Defaults of the spotify_etl2 normalizer: a fully processed item whose
track dict misses optional keys gets the documented substitutes. -/
theorem step2_full_defaults (ikvs tkvs : List (String × Json)) (t : Track2)
    (htrack : Json.lookup ikvs "track" = some (.obj tkvs))
    (hfull : step2 (.obj ikvs) = .full t) :
    (Json.lookup tkvs "name" = none → t.song_name = .str "Unknown") ∧
    (Json.lookup tkvs "artists" = none → t.artist_name = .str "Unknown") ∧
    (Json.lookup ikvs "played_at" = none →
      t.played_at = .str "" ∧ t.timestamp = .str "") ∧
    (Json.lookup tkvs "id" = none → t.track_id = .str "") ∧
    (Json.lookup tkvs "album" = none → t.album_name = .str "Unknown") ∧
    (Json.lookup tkvs "duration_ms" = none → t.duration_ms = .num 0) ∧
    (Json.lookup tkvs "popularity" = none → t.popularity = .num 0) := by
  simp only [step2, htrack, Option.getD_some] at hfull
  split at hfull
  case h_1 => exact absurd hfull (by simp)
  case h_2 an han =>
    split at hfull
    case h_1 => exact absurd hfull (by simp)
    case h_2 ts hts =>
      split at hfull
      case h_1 => exact absurd hfull (by simp)
      case h_2 al hal =>
        injection hfull with h
        subst h
        refine ⟨?_, ?_, ?_, ?_, ?_, ?_, ?_⟩
        · intro hn; simp [hn]
        · intro hn
          rw [hn] at han
          simp [artistNameOf, Json.truthy] at han
          simp [← han]
        · intro hn
          rw [hn] at hts
          simp only [Option.getD_none] at hts
          have hts2 : timestampOf (Json.str "") = some (Json.str "") := by decide
          rw [hts2] at hts
          injection hts with h2
          exact ⟨by simp [hn], by simp [← h2]⟩
        · intro hn; simp [hn]
        · intro hn
          rw [hn] at hal
          simp [albumNameOf, pyGetD, Json.lookup] at hal
          simp [← hal]
        · intro hn; simp [hn]
        · intro hn; simp [hn]

/-- The spotify_etl2 normalizer uses the first artist of a non-empty
artists list (spotify_etl2.py line 163). -/
theorem step2_full_first_artist (ikvs tkvs akvs : List (String × Json))
    (rest : List Json) (v : Json) (t : Track2)
    (htrack : Json.lookup ikvs "track" = some (.obj tkvs))
    (hart : Json.lookup tkvs "artists" = some (.arr (.obj akvs :: rest)))
    (hname : Json.lookup akvs "name" = some v)
    (hfull : step2 (.obj ikvs) = .full t) : t.artist_name = v := by
  simp only [step2, htrack, Option.getD_some] at hfull
  split at hfull
  case h_1 => exact absurd hfull (by simp)
  case h_2 an han =>
    rw [hart] at han
    simp [artistNameOf, Json.truthy, pyIndex0, pyGetD, hname] at han
    split at hfull
    case h_1 => exact absurd hfull (by simp)
    case h_2 ts hts =>
      split at hfull
      case h_1 => exact absurd hfull (by simp)
      case h_2 al hal =>
        injection hfull with h
        subst h
        simp [han]

/-- When no item of the batch fails mid-extraction, the spotify_etl2
normalizer succeeds: skipped items are dropped and the rest are processed
in order. -/
theorem process_skips_non_ragged (items : List Json)
    (hnr : ∀ it ∈ items, (step2 it).isRagged = false) :
    process_tracks_data (.obj [("items", .arr items)]) =
      .ok (items.filterMap (fun it => (step2 it).row)) := by
  have hany : (items.map step2).any Step2.isRagged = false := by
    rw [List.any_eq_false]
    intro st hst
    obtain ⟨it, hit, rfl⟩ := List.mem_map.mp hst
    simpa using hnr it hit
  simp [process_tracks_data, pyGetD, Json.lookup, pyIter, hany, List.filterMap_map]
  rfl

/-- The new.py normalizer skips an item without a `track` key (the
`item["track"]` subscript raises KeyError, caught per item). -/
theorem processItemNew_no_track (idx : Nat) (ikvs : List (String × Json))
    (hn : Json.lookup ikvs "track" = none) :
    processItemNew idx (.obj ikvs) = none := by
  simp [processItemNew, pySub, hn]

/-- Defaults of the new.py normalizer: every `.get`-accessed field of a
processed item falls back to the documented substitute when the key is
missing; a missing artists list yields the Unknown artist and empty
artist id. -/
theorem processItemNew_defaults (idx : Nat) (ikvs tkvs : List (String × Json))
    (t : TrackNew)
    (htrack : Json.lookup ikvs "track" = some (.obj tkvs))
    (hsome : processItemNew idx (.obj ikvs) = some t) :
    (Json.lookup tkvs "name" = none → t.track_name = .str "Unknown") ∧
    (Json.lookup tkvs "artists" = none →
      t.artist_name = .str "Unknown" ∧ t.artist_id = .str "") ∧
    (Json.lookup tkvs "album" = none →
      t.album_name = .str "Unknown" ∧ t.album_id = .str "") ∧
    (Json.lookup tkvs "external_urls" = none → t.spotify_url = .str "") ∧
    (Json.lookup tkvs "preview_url" = none → t.preview_url = .str "") ∧
    (Json.lookup tkvs "duration_ms" = none → t.duration_ms = .num 0) ∧
    (Json.lookup tkvs "popularity" = none → t.popularity = .num 0) ∧
    (Json.lookup tkvs "explicit" = none → t.explicit = .bool false) ∧
    (Json.lookup ikvs "played_at" = none → t.played_at = .str "") ∧
    (Json.lookup tkvs "id" = none → t.track_id = .str "") := by
  simp only [processItemNew, pySub, htrack] at hsome
  simp only [Option.bind_eq_bind, Option.bind_eq_some, Option.some.injEq] at hsome
  obtain ⟨an, han, al, hal, su, hsu, aid, haid, alid, halid, heqt⟩ := hsome
  subst heqt
  refine ⟨?_, ?_, ?_, ?_, ?_, ?_, ?_, ?_, ?_, ?_⟩
  · intro hn; simp [hn]
  · intro hn
    rw [hn] at han haid
    simp [artistField, Json.truthy] at han haid
    exact ⟨by simp [← han], by simp [← haid]⟩
  · intro hn
    rw [hn] at hal halid
    simp [pyGetD, Json.lookup] at hal halid
    exact ⟨by simp [← hal], by simp [← halid]⟩
  · intro hn
    rw [hn] at hsu
    simp [pyGetD, Json.lookup] at hsu
    simp [← hsu]
  · intro hn; simp [hn]
  · intro hn; simp [hn]
  · intro hn; simp [hn]
  · intro hn; simp [hn]
  · intro hn; simp [hn]
  · intro hn; simp [hn]

/-- The new.py normalizer also uses the first artist of a non-empty
artists list (new.py line 116). -/
theorem processItemNew_first_artist (idx : Nat)
    (ikvs tkvs akvs : List (String × Json)) (rest : List Json) (v : Json)
    (t : TrackNew)
    (htrack : Json.lookup ikvs "track" = some (.obj tkvs))
    (hart : Json.lookup tkvs "artists" = some (.arr (.obj akvs :: rest)))
    (hname : Json.lookup akvs "name" = some v)
    (hsome : processItemNew idx (.obj ikvs) = some t) : t.artist_name = v := by
  simp only [processItemNew, pySub, htrack] at hsome
  simp only [Option.bind_eq_bind, Option.bind_eq_some, Option.some.injEq] at hsome
  obtain ⟨an, han, al, hal, su, hsu, aid, haid, alid, halid, heqt⟩ := hsome
  subst heqt
  rw [hart] at han
  simp [artistField, Json.truthy, pyIndex0, pySub, hname, Option.bind_eq_some] at han
  simp [← han]

/-- Claim C5, amended. The normalizer of new.py never raises: an item whose
extraction fails - no `track` key, a non-dict track, or a first artist
entry without the subscripted key - is skipped while the rest of the batch
is processed, `.get`-accessed missing fields receive the documented
defaults ("Unknown" names, 0 numerics, false explicit, empty ids/urls), and
the first artist is used when the artists list is non-empty. In
the spotify_etl2 normalizer the same defaults and first-artist rule hold for
items that process fully, and an item whose track value is null is skipped
cleanly with the rest of the batch still processed; but an item with no
`track` key at all is NOT skipped - it produces a record of pure defaults -
and an item failing mid-extraction aborts the whole batch (DataFrame
length mismatch) instead of being skipped. -/
theorem claim5_normalizer_amended :
    (∀ ikvs : List (String × Json), Json.lookup ikvs "track" = some Json.null →
      step2 (.obj ikvs) = .skip) ∧
    (∀ ikvs : List (String × Json), Json.lookup ikvs "track" = none →
      Json.lookup ikvs "played_at" = none →
      step2 (.obj ikvs) = .full
        { song_name := .str "Unknown", artist_name := .str "Unknown",
          played_at := .str "", timestamp := .str "", track_id := .str "",
          album_name := .str "Unknown", duration_ms := .num 0,
          popularity := .num 0 }) ∧
    (∀ (ikvs tkvs : List (String × Json)) (t : Track2),
      Json.lookup ikvs "track" = some (.obj tkvs) →
      step2 (.obj ikvs) = .full t →
      (Json.lookup tkvs "name" = none → t.song_name = .str "Unknown") ∧
      (Json.lookup tkvs "artists" = none → t.artist_name = .str "Unknown") ∧
      (Json.lookup ikvs "played_at" = none →
        t.played_at = .str "" ∧ t.timestamp = .str "") ∧
      (Json.lookup tkvs "id" = none → t.track_id = .str "") ∧
      (Json.lookup tkvs "album" = none → t.album_name = .str "Unknown") ∧
      (Json.lookup tkvs "duration_ms" = none → t.duration_ms = .num 0) ∧
      (Json.lookup tkvs "popularity" = none → t.popularity = .num 0)) ∧
    (∀ (ikvs tkvs akvs : List (String × Json)) (rest : List Json) (v : Json)
        (t : Track2),
      Json.lookup ikvs "track" = some (.obj tkvs) →
      Json.lookup tkvs "artists" = some (.arr (.obj akvs :: rest)) →
      Json.lookup akvs "name" = some v →
      step2 (.obj ikvs) = .full t → t.artist_name = v) ∧
    (∀ items : List Json, (∀ it ∈ items, (step2 it).isRagged = false) →
      process_tracks_data (.obj [("items", .arr items)]) =
        .ok (items.filterMap (fun it => (step2 it).row))) ∧
    (∀ (idx : Nat) (ikvs : List (String × Json)),
      Json.lookup ikvs "track" = none → processItemNew idx (.obj ikvs) = none) ∧
    (∀ (idx : Nat) (ikvs tkvs : List (String × Json)) (t : TrackNew),
      Json.lookup ikvs "track" = some (.obj tkvs) →
      processItemNew idx (.obj ikvs) = some t →
      (Json.lookup tkvs "name" = none → t.track_name = .str "Unknown") ∧
      (Json.lookup tkvs "artists" = none →
        t.artist_name = .str "Unknown" ∧ t.artist_id = .str "") ∧
      (Json.lookup tkvs "album" = none →
        t.album_name = .str "Unknown" ∧ t.album_id = .str "") ∧
      (Json.lookup tkvs "external_urls" = none → t.spotify_url = .str "") ∧
      (Json.lookup tkvs "preview_url" = none → t.preview_url = .str "") ∧
      (Json.lookup tkvs "duration_ms" = none → t.duration_ms = .num 0) ∧
      (Json.lookup tkvs "popularity" = none → t.popularity = .num 0) ∧
      (Json.lookup tkvs "explicit" = none → t.explicit = .bool false) ∧
      (Json.lookup ikvs "played_at" = none → t.played_at = .str "") ∧
      (Json.lookup tkvs "id" = none → t.track_id = .str "")) ∧
    (∀ (idx : Nat) (ikvs tkvs akvs : List (String × Json)) (rest : List Json)
        (v : Json) (t : TrackNew),
      Json.lookup ikvs "track" = some (.obj tkvs) →
      Json.lookup tkvs "artists" = some (.arr (.obj akvs :: rest)) →
      Json.lookup akvs "name" = some v →
      processItemNew idx (.obj ikvs) = some t → t.artist_name = v) := by
  refine ⟨?_, ?_, ?_, ?_, ?_, ?_, ?_, ?_⟩
  · intro ikvs h
    simp [step2, h]
  · intro ikvs h1 h2
    simp [step2, h1, h2, artistNameOf, timestampOf, albumNameOf, Json.truthy,
      pyGetD, Json.lookup]
    decide
  · exact fun ikvs tkvs t => step2_full_defaults ikvs tkvs t
  · exact fun ikvs tkvs akvs rest v t => step2_full_first_artist ikvs tkvs akvs rest v t
  · exact process_skips_non_ragged
  · exact processItemNew_no_track
  · exact fun idx ikvs tkvs t => processItemNew_defaults idx ikvs tkvs t
  · exact fun idx ikvs tkvs akvs rest v t =>
      processItemNew_first_artist idx ikvs tkvs akvs rest v t

/-- Claim C5, witness: a null-track item is skipped while the rest of the
batch is processed, a no-track-key item yields the all-defaults record, and
the new.py normalizer drops an item without a track key. -/
theorem claim5_witness :
    step2 (.obj [("track", Json.null)]) = .skip ∧
    step2 (.obj [("other", .str "x")]) = .full
      { song_name := .str "Unknown", artist_name := .str "Unknown",
        played_at := .str "", timestamp := .str "", track_id := .str "",
        album_name := .str "Unknown", duration_ms := .num 0,
        popularity := .num 0 } ∧
    process_tracks_data (.obj [("items", .arr
        [.obj [("track", Json.null)],
         .obj [("track", .obj [("name", .str "A")])]])]) =
      .ok [{ song_name := .str "A", artist_name := .str "Unknown",
             played_at := .str "", timestamp := .str "", track_id := .str "",
             album_name := .str "Unknown", duration_ms := .num 0,
             popularity := .num 0 }] ∧
    processItemNew 0 (.obj [("other", .str "x")]) = none :=
  have h := claim5_normalizer_amended
  ⟨h.1 _ (by decide),
   h.2.1 _ (by decide) (by decide),
   (h.2.2.2.2.1 [.obj [("track", Json.null)],
      .obj [("track", .obj [("name", .str "A")])]] (by decide)).trans (by decide),
   h.2.2.2.2.2.1 0 _ (by decide)⟩
